import Mathlib

/-!
Verification of the download-request/result flow of the frontend file
`frontend/youtube.js`.  The file wires a form submission handler
(`handleSubmit`) to a backend POST endpoint and renders the JSON response
into two DOM slots: a status line (`#download-status`) and a result area
(`#download-result`).

The embedding below mirrors the source line by line:

* `LOCAL_HOSTNAMES` / `BACKEND_URL` (lines 1-4) become `LOCAL_HOSTNAMES`
  and the function `BACKEND_URL : String → String` of the page hostname.
* `setStatus` (lines 6-11) writes the status slot when present.
* `renderResult` (lines 13-38) clears or fills the result slot; the href
  computation on lines 22-24 is the function `downloadHref`.
* `handleSubmit` (lines 40-78) is a pure function of the environment
  (input value, hostname, network outcome) and the initial DOM, returning
  the final DOM together with the trace of observable actions (status
  writes, result-area writes, the fetch call).

JavaScript string truthiness (`a || b`) is `jsOr`: an absent or empty
string selects the fallback.  The network is an oracle `FetchOutcome`
covering a rejected fetch, a response whose body fails to parse as JSON,
and a parsed JSON body: an object in which each of the four fields this
flow reads (`detail`, `video_id`, `download_url`, `filename`) may be
absent.  In the source `renderResult(data)` runs inside the try block
after the success status write, and on a parsed 2xx body lacking
`download_url` it throws at line 22 (`startsWith` of `undefined`), so the
catch performs a second, terminal error status write; the embedding keeps
that path (`renderResult` returns `Except`).
-/

/-- The status line element: `textContent` and `dataset.status` of
`#download-status` (youtube.js lines 9-10). -/
structure StatusSlot where
  textContent : String
  datasetStatus : String
  deriving Repr, DecidableEq

/-- The two DOM slots the flow writes.  `none` models a missing element
(the `if (!statusEl) return;` / `if (!resultEl) return;` guards);
`resultEl` holds the `innerHTML` string of `#download-result`. -/
structure Dom where
  statusEl : Option StatusSlot
  resultEl : Option String
  deriving Repr, DecidableEq

/-- The payload of a successful response:
`{video_id, download_url, filename}` (spec section 6). -/
structure DownloadResult where
  video_id : String
  download_url : String
  filename : String
  deriving Repr, DecidableEq

/-- A parsed JSON response body, modelled as an object in which every field
this flow reads is optional: `none` is an absent property (JavaScript
`undefined`).  `detail` is what the error path reads (`error.detail`,
line 67); `video_id`, `download_url` and `filename` are what
`renderResult(data)` reads out of a 2xx body (lines 22-34) — in
particular a body such as `{}` has all four fields `none`. -/
structure JsonBody where
  detail : Option String
  video_id : Option String
  download_url : Option String
  filename : Option String
  deriving Repr, DecidableEq

/-- JavaScript template-literal interpolation of a possibly-undefined
value: an absent field prints as the string `undefined`. -/
def jsToString : Option String → String
  | none => "undefined"
  | some s => s

/-- The `DownloadResult` view the renderer builds from a parsed body: it
exists exactly when `download_url` is present, since line 22 calls
`startsWith` on that field; `video_id` and `filename` are only
interpolated into the template, so an absent one degrades to the string
`undefined` instead of throwing. -/
def JsonBody.asDownloadResult (b : JsonBody) : Option DownloadResult :=
  match b.download_url with
  | none => none
  | some u => some ⟨jsToString b.video_id, u, jsToString b.filename⟩

/-- Outcome of `response.json()`: a parsed value, or a rejection carrying
the parse error message. -/
inductive BodyParse where
  | json (b : JsonBody)
  | failure (errMessage : String)
  deriving Repr, DecidableEq

/-- Outcome of the `fetch` call on line 57: the promise rejects (network
failure, `err.message` given), or a response arrives with its `ok` flag
and its body-parse behaviour. -/
inductive FetchOutcome where
  | reject (errMessage : String)
  | resp (ok : Bool) (body : BodyParse)
  deriving Repr, DecidableEq

/-- JavaScript `a || b` on an optional string: `undefined` and the empty
string are falsy, any other string is returned unchanged. -/
def jsOr : Option String → String → String
  | none, b => b
  | some a, b => if a = "" then b else a

/-- JavaScript `s.startsWith(p)`: `p` is a leading substring of `s`,
compared character by character. -/
def jsStartsWith (s p : String) : Bool := p.data.isPrefixOf s.data

/-- JavaScript `s.trim()`: strip leading and trailing whitespace. -/
def jsTrim (s : String) : String :=
  ⟨((s.data.dropWhile Char.isWhitespace).reverse.dropWhile Char.isWhitespace).reverse⟩

/-- `LOCAL_HOSTNAMES` (youtube.js line 1). -/
def LOCAL_HOSTNAMES : List String := ["localhost", "127.0.0.1", "0.0.0.0"]

/-- `BACKEND_URL` (youtube.js lines 2-4) as a function of
`window.location.hostname`. -/
def BACKEND_URL (hostname : String) : String :=
  if LOCAL_HOSTNAMES.contains hostname
  then "http://localhost:8000"
  else "https://indicators-dashboard-he1e.onrender.com"

/-- `setStatus(message, type)` (youtube.js lines 6-11): writes the status
slot when the element exists, otherwise does nothing. -/
def setStatus (dom : Dom) (message : String) (type : String := "info") : Dom :=
  match dom.statusEl with
  | none => dom
  | some _ => { dom with statusEl := some ⟨message, type⟩ }

/-- The href resolution of `renderResult` (youtube.js lines 22-24):
`data.download_url.startsWith("http") ? data.download_url :
BACKEND_URL + data.download_url`. -/
def downloadHref (backendURL url : String) : String :=
  if jsStartsWith url "http" then url else backendURL ++ url

/-- The template literal assigned to `resultEl.innerHTML`
(youtube.js lines 26-37). -/
def resultCardHTML (video_id href filename : String) : String :=
  "\n    <div class=\"download-card\">\n      <h3>Download ready</h3>\n      <p>\n        <span class=\"result-label\">Video ID:</span>\n        <code>"
    ++ video_id
    ++ "</code>\n      </p>\n      <a class=\"result-link\" href=\""
    ++ href
    ++ "\" download>\n        ⬇️ Download "
    ++ filename
    ++ "\n      </a>\n    </div>\n  "

/-- Message of the TypeError thrown at youtube.js line 22 when a parsed
body lacks `download_url`: `startsWith` is called on `undefined`.  The
exact text is host-defined; nothing proved below depends on this value. -/
def typeErrorMessage : String :=
  "Cannot read properties of undefined reading startsWith"

/-- `renderResult(data)` (youtube.js lines 13-38): with a missing element
it does nothing; with `null` it clears the slot; with a parsed body it
resolves the href (line 22) — throwing when `download_url` is absent,
because `startsWith` is called on it — and fills the slot with the
download card.  `Except.error` is the exception propagating to the
caller. -/
def renderResult (hostname : String) (dom : Dom) (data : Option JsonBody) :
    Except String Dom :=
  match dom.resultEl with
  | none => .ok dom
  | some _ =>
    match data with
    | none => .ok { dom with resultEl := some "" }
    | some d =>
      match d.asDownloadResult with
      | none => .error typeErrorMessage
      | some r =>
        .ok { dom with
            resultEl := some (resultCardHTML r.video_id
              (downloadHref (BACKEND_URL hostname) r.download_url) r.filename) }

/-- Observable actions of one `handleSubmit` run, in program order:
`setStatus` calls, the `renderResult(null)` clear, the `fetch` call with
its endpoint and submitted URL, and the normal (non-throwing) return of
the `renderResult(data)` call with its parsed-body argument.  A throwing
`renderResult(data)` emits no `resultRendered` event; the catch handler's
status write records that outcome instead. -/
inductive Event where
  | statusSet (message type : String)
  | resultCleared
  | fetchIssued (endpoint url : String)
  | resultRendered (data : JsonBody)
  deriving Repr, DecidableEq

/-- Whether an event is a `setStatus` call. -/
def Event.isStatusSet : Event → Bool
  | .statusSet _ _ => true
  | _ => false

/-- The inputs a single `handleSubmit` run depends on: the page hostname,
the value of `#video-url` (`none` when the element is missing, line 45),
and the network oracle. -/
structure SubmitEnv where
  hostname : String
  urlInputValue : Option String
  fetchOutcome : FetchOutcome
  deriving Repr, DecidableEq

/-- Fixed messages of youtube.js. -/
def validationMsg : String := "Please enter a valid YouTube URL."

/-- Status message set on line 53 before the fetch. -/
def processingMsg : String := "Processing… this can take a minute for long videos."

/-- Status message set on line 72 on success. -/
def successMsg : String := "Success! Your video is ready."

/-- Fallback error message on line 67. -/
def downloadFailedMsg : String := "Download failed"

/-- Fallback in the catch handler on line 76. -/
def genericErrorMsg : String := "Something went wrong."

/-- The DOM state at the moment the fetch is issued: status set to pending
(line 53) and result area cleared (line 54).  Clearing passes `null` to
`renderResult`, which never throws on `null`, so the error fallback branch
here is unreachable. -/
def domAtFetch (hostname : String) (dom : Dom) : Dom :=
  match renderResult hostname (setStatus dom processingMsg "pending") none with
  | .ok d => d
  | .error _ => setStatus dom processingMsg "pending"

/-- `handleSubmit` (youtube.js lines 40-78) as a pure transition on the
DOM, also returning the trace of observable actions.  Events record the
calls the code makes in order; the DOM component applies their guarded
effects. -/
def handleSubmit (env : SubmitEnv) (dom : Dom) : Dom × List Event :=
  match env.urlInputValue with
  | none => (dom, [])
  | some raw =>
    let url := jsTrim raw
    if url = "" then
      (setStatus dom validationMsg "error", [Event.statusSet validationMsg "error"])
    else
      let endpoint := BACKEND_URL env.hostname ++ "/api/youtube/download"
      let dom2 := domAtFetch env.hostname dom
      let pre : List Event :=
        [Event.statusSet processingMsg "pending", Event.resultCleared,
         Event.fetchIssued endpoint url]
      match env.fetchOutcome with
      | .reject errMessage =>
          (setStatus dom2 (jsOr (some errMessage) genericErrorMsg) "error",
           pre ++ [Event.statusSet (jsOr (some errMessage) genericErrorMsg) "error"])
      | .resp ok body =>
        if ok then
          match body with
          | .failure errMessage =>
              (setStatus dom2 (jsOr (some errMessage) genericErrorMsg) "error",
               pre ++ [Event.statusSet (jsOr (some errMessage) genericErrorMsg) "error"])
          | .json b =>
              -- `renderResult(data)` at line 73 runs inside the try, after
              -- the success status write at line 72: if it throws, the
              -- catch at line 74 performs a second, terminal error write.
              let dom3 := setStatus dom2 successMsg "success"
              match renderResult env.hostname dom3 (some b) with
              | .ok dom4 =>
                  (dom4, pre ++ [Event.statusSet successMsg "success",
                                 Event.resultRendered b])
              | .error em =>
                  (setStatus dom3 (jsOr (some em) genericErrorMsg) "error",
                   pre ++ [Event.statusSet successMsg "success",
                           Event.statusSet (jsOr (some em) genericErrorMsg) "error"])
        else
          match body with
          | .failure _ =>
              -- `.catch(() => ({}))` yields `{}`: `detail` is undefined.
              (setStatus dom2 (jsOr (some (jsOr none downloadFailedMsg)) genericErrorMsg) "error",
               pre ++ [Event.statusSet (jsOr (some (jsOr none downloadFailedMsg)) genericErrorMsg) "error"])
          | .json b =>
              (setStatus dom2 (jsOr (some (jsOr b.detail downloadFailedMsg)) genericErrorMsg) "error",
               pre ++ [Event.statusSet (jsOr (some (jsOr b.detail downloadFailedMsg)) genericErrorMsg) "error"])

/-- `setStatus` never touches the result slot. -/
theorem setStatus_resultEl (dom : Dom) (m t : String) :
    (setStatus dom m t).resultEl = dom.resultEl := by
  obtain ⟨st, re⟩ := dom
  cases st <;> rfl

/-- With the status element present, `setStatus` overwrites it. -/
theorem setStatus_statusEl_some (dom : Dom) (s0 : StatusSlot) (m t : String)
    (h : dom.statusEl = some s0) :
    (setStatus dom m t).statusEl = some ⟨m, t⟩ := by
  obtain ⟨st, re⟩ := dom
  cases h
  rfl

/-- When `renderResult` returns normally it never touches the status
slot. -/
theorem renderResult_ok_statusEl (hostname : String) (dom dom' : Dom)
    (data : Option JsonBody)
    (h : renderResult hostname dom data = Except.ok dom') :
    dom'.statusEl = dom.statusEl := by
  obtain ⟨st, re⟩ := dom
  cases re with
  | none =>
    simp [renderResult] at h
    rw [← h]
  | some html =>
    cases data with
    | none =>
      simp [renderResult] at h
      rw [← h]
    | some d =>
      cases hd : d.asDownloadResult with
      | none => simp [renderResult, hd] at h
      | some r =>
        simp [renderResult, hd] at h
        rw [← h]

/-- At fetch time the status slot (when present) carries the fixed pending
advisory. -/
theorem domAtFetch_statusEl (hostname : String) (dom : Dom) (s0 : StatusSlot)
    (h : dom.statusEl = some s0) :
    (domAtFetch hostname dom).statusEl = some ⟨processingMsg, "pending"⟩ := by
  obtain ⟨st, re⟩ := dom
  cases h
  cases re <;> rfl

/-- At fetch time the result slot (when present) has been cleared to the
empty fragment. -/
theorem domAtFetch_clears_result (hostname : String) (dom : Dom) (html : String)
    (h : dom.resultEl = some html) :
    (domAtFetch hostname dom).resultEl = some "" := by
  obtain ⟨st, re⟩ := dom
  cases h
  cases st <;> rfl

/-- Every non-validation run of `handleSubmit` emits the pending status,
the result clear and the fetch, then a first post-fetch status write
(`success` or `error`).  Either that write is the only further status
write and the status slot (when present) shows it, or — when the parsed
2xx body makes `renderResult` throw after the success write — it is the
`success` write followed by exactly one further `error` write, which the
status slot then shows. -/
theorem handleSubmit_shape (hostname raw : String) (fo : FetchOutcome) (dom : Dom)
    (ht : ¬ jsTrim raw = "") :
    ∃ m t rest,
      (handleSubmit ⟨hostname, some raw, fo⟩ dom).2
        = Event.statusSet processingMsg "pending" :: Event.resultCleared ::
          Event.fetchIssued (BACKEND_URL hostname ++ "/api/youtube/download") (jsTrim raw) ::
          Event.statusSet m t :: rest
      ∧ (t = "success" ∨ t = "error")
      ∧ (((∀ e ∈ rest, e.isStatusSet = false)
          ∧ (∀ s0 : StatusSlot, dom.statusEl = some s0 →
              (handleSubmit ⟨hostname, some raw, fo⟩ dom).1.statusEl = some ⟨m, t⟩))
        ∨ (t = "success"
          ∧ ∃ em, rest = [Event.statusSet em "error"]
            ∧ (∀ s0 : StatusSlot, dom.statusEl = some s0 →
                (handleSubmit ⟨hostname, some raw, fo⟩ dom).1.statusEl
                  = some ⟨em, "error"⟩))) := by
  rcases fo with em | ⟨ok, b | em⟩
  · refine ⟨jsOr (some em) genericErrorMsg, "error", [], ?_, Or.inr rfl, Or.inl ⟨?_, ?_⟩⟩
    · simp [handleSubmit, ht]
    · simp
    · intro s0 hs
      simp only [handleSubmit, ht, if_false, if_true]
      exact setStatus_statusEl_some _ ⟨processingMsg, "pending"⟩ _ _
        (domAtFetch_statusEl hostname dom s0 hs)
  · cases ok with
    | true =>
      cases hrr : renderResult hostname
          (setStatus (domAtFetch hostname dom) successMsg "success") (some b) with
      | ok dom4 =>
        refine ⟨successMsg, "success", [Event.resultRendered b], ?_, Or.inl rfl,
          Or.inl ⟨?_, ?_⟩⟩
        · simp [handleSubmit, ht, hrr]
        · simp [Event.isStatusSet]
        · intro s0 hs
          have h2 : (setStatus (domAtFetch hostname dom) successMsg "success").statusEl
              = some ⟨successMsg, "success"⟩ :=
            setStatus_statusEl_some _ ⟨processingMsg, "pending"⟩ _ _
              (domAtFetch_statusEl hostname dom s0 hs)
          have h3 := renderResult_ok_statusEl hostname _ dom4 (some b) hrr
          simp only [handleSubmit, ht, if_false, if_true, hrr]
          exact h3.trans h2
      | error em =>
        refine ⟨successMsg, "success",
          [Event.statusSet (jsOr (some em) genericErrorMsg) "error"], ?_, Or.inl rfl,
          Or.inr ⟨rfl, jsOr (some em) genericErrorMsg, rfl, ?_⟩⟩
        · simp [handleSubmit, ht, hrr]
        · intro s0 hs
          have h2 : (setStatus (domAtFetch hostname dom) successMsg "success").statusEl
              = some ⟨successMsg, "success"⟩ :=
            setStatus_statusEl_some _ ⟨processingMsg, "pending"⟩ _ _
              (domAtFetch_statusEl hostname dom s0 hs)
          simp only [handleSubmit, ht, if_false, if_true, hrr]
          exact setStatus_statusEl_some _ ⟨successMsg, "success"⟩ _ _ h2
    | false =>
      refine ⟨jsOr (some (jsOr b.detail downloadFailedMsg)) genericErrorMsg, "error", [],
        ?_, Or.inr rfl, Or.inl ⟨?_, ?_⟩⟩
      · simp [handleSubmit, ht]
      · simp
      · intro s0 hs
        simp only [handleSubmit, ht, if_false, if_true]
        exact setStatus_statusEl_some _ ⟨processingMsg, "pending"⟩ _ _
          (domAtFetch_statusEl hostname dom s0 hs)
  · cases ok with
    | true =>
      refine ⟨jsOr (some em) genericErrorMsg, "error", [], ?_, Or.inr rfl, Or.inl ⟨?_, ?_⟩⟩
      · simp [handleSubmit, ht]
      · simp
      · intro s0 hs
        simp only [handleSubmit, ht, if_false, if_true]
        exact setStatus_statusEl_some _ ⟨processingMsg, "pending"⟩ _ _
          (domAtFetch_statusEl hostname dom s0 hs)
    | false =>
      refine ⟨jsOr (some (jsOr none downloadFailedMsg)) genericErrorMsg, "error", [],
        ?_, Or.inr rfl, Or.inl ⟨?_, ?_⟩⟩
      · simp [handleSubmit, ht]
      · simp
      · intro s0 hs
        simp only [handleSubmit, ht, if_false, if_true]
        exact setStatus_statusEl_some _ ⟨processingMsg, "pending"⟩ _ _
          (domAtFetch_statusEl hostname dom s0 hs)

/-- Claim C1: when the input value is empty after trimming, `handleSubmit`
issues no fetch, and its only action is setting the status slot to the
validation error message with state `error`. -/
theorem C1_empty_url_validation (hostname raw : String) (fo : FetchOutcome) (dom : Dom)
    (s0 : StatusSlot) (ht : jsTrim raw = "") (hs : dom.statusEl = some s0) :
    (handleSubmit ⟨hostname, some raw, fo⟩ dom).1.statusEl
        = some ⟨validationMsg, "error"⟩
    ∧ (handleSubmit ⟨hostname, some raw, fo⟩ dom).2
        = [Event.statusSet validationMsg "error"]
    ∧ ∀ ep u, Event.fetchIssued ep u ∉ (handleSubmit ⟨hostname, some raw, fo⟩ dom).2 := by
  have h1 : handleSubmit ⟨hostname, some raw, fo⟩ dom
      = (setStatus dom validationMsg "error", [Event.statusSet validationMsg "error"]) := by
    simp [handleSubmit, ht]
  refine ⟨?_, ?_, ?_⟩
  · rw [h1]
    exact setStatus_statusEl_some dom s0 _ _ hs
  · rw [h1]
  · rw [h1]
    intro ep u h
    simp at h

/-- Claim C1 witness: a whitespace-only input on a concrete page. -/
theorem C1_witness :
    (handleSubmit ⟨"example.com", some "   ", FetchOutcome.reject "boom"⟩
        ⟨some ⟨"", "info"⟩, some "prior"⟩).1.statusEl
        = some ⟨validationMsg, "error"⟩
    ∧ (handleSubmit ⟨"example.com", some "   ", FetchOutcome.reject "boom"⟩
        ⟨some ⟨"", "info"⟩, some "prior"⟩).2
        = [Event.statusSet validationMsg "error"]
    ∧ ∀ ep u, Event.fetchIssued ep u ∉
        (handleSubmit ⟨"example.com", some "   ", FetchOutcome.reject "boom"⟩
          ⟨some ⟨"", "info"⟩, some "prior"⟩).2 :=
  C1_empty_url_validation "example.com" "   " (FetchOutcome.reject "boom") _ _ (by decide) rfl

/-- Claim C4: a non-2xx response whose body does not parse as JSON yields
the generic fallback message "Download failed" in the status slot. -/
theorem C4_unparsable_body_generic (hostname raw em : String) (dom : Dom) (s0 : StatusSlot)
    (ht : ¬ jsTrim raw = "") (hs : dom.statusEl = some s0) :
    (handleSubmit ⟨hostname, some raw,
        FetchOutcome.resp false (BodyParse.failure em)⟩ dom).1.statusEl
      = some ⟨downloadFailedMsg, "error"⟩ := by
  simp [handleSubmit, ht]
  rw [setStatus_statusEl_some _ ⟨processingMsg, "pending"⟩ _ _
    (domAtFetch_statusEl hostname dom s0 hs)]
  decide

/-- Claim C4 witness: concrete unparsable error body. -/
theorem C4_witness :
    (handleSubmit ⟨"example.com", some "https://youtu.be/abc",
        FetchOutcome.resp false (BodyParse.failure "Unexpected token < in JSON")⟩
        ⟨some ⟨"", "info"⟩, some ""⟩).1.statusEl
      = some ⟨downloadFailedMsg, "error"⟩ :=
  C4_unparsable_body_generic "example.com" "https://youtu.be/abc"
    "Unexpected token < in JSON" _ ⟨"", "info"⟩ (by decide) rfl

/-- Claim C10: a submission failing validation leaves the result slot
untouched; only the status slot is written. -/
theorem C10_validation_preserves_result (hostname raw : String) (fo : FetchOutcome) (dom : Dom)
    (ht : jsTrim raw = "") :
    (handleSubmit ⟨hostname, some raw, fo⟩ dom).1.resultEl = dom.resultEl := by
  have h1 : handleSubmit ⟨hostname, some raw, fo⟩ dom
      = (setStatus dom validationMsg "error", [Event.statusSet validationMsg "error"]) := by
    simp [handleSubmit, ht]
  rw [h1]
  exact setStatus_resultEl dom _ _

/-- Claim C10 witness: a prior result card survives a failed validation. -/
theorem C10_witness :
    (handleSubmit ⟨"example.com", some " \t", FetchOutcome.reject ""⟩
        ⟨some ⟨"Success! Your video is ready.", "success"⟩, some "card"⟩).1.resultEl
      = some "card" :=
  C10_validation_preserves_result "example.com" " \t" (FetchOutcome.reject "")
    ⟨some ⟨"Success! Your video is ready.", "success"⟩, some "card"⟩ (by decide)

/-- Claim C6: a root-relative download_url is joined to the backend origin
by plain concatenation. -/
theorem C6_root_relative_href :
    downloadHref "https://x.test" "/files/abc.mp4" = "https://x.test/files/abc.mp4" := by
  decide

/-- Modelled from the claim's wording for C3: a link target denotes an
absolute network location when it begins with a recognized URL scheme; the
schemes this interface deals in are http and https, and in a URL the
scheme is terminated by `://`. -/
def specIsAbsoluteLocation (url : String) : Bool :=
  jsStartsWith url "http://" || jsStartsWith url "https://"

/-- The href resolution as the claim words it: absolute locations verbatim,
everything else prefixed with the backend origin. -/
def specResolveHref (backendURL url : String) : String :=
  if specIsAbsoluteLocation url then url else backendURL ++ url

/-- Claim C3 counterexample: `"httpsomething"` begins with no recognized
URL scheme, yet the code uses it verbatim instead of prepending the
backend origin, because the source tests only the four characters
`"http"`. -/
theorem C3_counterexample :
    downloadHref "https://x.test" "httpsomething" = "httpsomething"
    ∧ specResolveHref "https://x.test" "httpsomething" = "https://x.testhttpsomething"
    ∧ downloadHref "https://x.test" "httpsomething"
        ≠ specResolveHref "https://x.test" "httpsomething" := by
  decide

/-- Claim C3 (amended): the renderer uses download_url verbatim exactly
when it begins with the literal character sequence `"http"` (hence in
particular for http and https URLs); any other download_url gets the
backend origin prepended. -/
theorem C3_href_resolution (backendURL url : String) :
    (jsStartsWith url "http" = true → downloadHref backendURL url = url)
    ∧ (jsStartsWith url "http" = false →
        downloadHref backendURL url = backendURL ++ url) := by
  constructor <;> intro h <;> simp [downloadHref, h]

/-- Claim C3 witness: an absolute https URL kept verbatim, a root-relative
path prefixed. -/
theorem C3_witness :
    downloadHref "https://x.test" "https://cdn.example/v.mp4" = "https://cdn.example/v.mp4"
    ∧ downloadHref "https://x.test" "/files/v.mp4" = "https://x.test" ++ "/files/v.mp4" :=
  ⟨(C3_href_resolution "https://x.test" "https://cdn.example/v.mp4").1 (by decide),
   (C3_href_resolution "https://x.test" "/files/v.mp4").2 (by decide)⟩

/-- Claim C8: backend origin selection is a static total function of the
hostname: the three recognized local hostnames map to the development
origin, every other hostname to the fixed production origin. -/
theorem C8_backend_origin_static (hostname : String) :
    ((hostname = "localhost" ∨ hostname = "127.0.0.1" ∨ hostname = "0.0.0.0") →
      BACKEND_URL hostname = "http://localhost:8000")
    ∧ (hostname ≠ "localhost" → hostname ≠ "127.0.0.1" → hostname ≠ "0.0.0.0" →
      BACKEND_URL hostname = "https://indicators-dashboard-he1e.onrender.com") := by
  constructor
  · rintro (rfl | rfl | rfl) <;> decide
  · intro h1 h2 h3
    simp [BACKEND_URL, LOCAL_HOSTNAMES, h1, h2, h3]

/-- Claim C8 witness: one local and one non-local hostname. -/
theorem C8_witness :
    BACKEND_URL "localhost" = "http://localhost:8000"
    ∧ BACKEND_URL "app.example.com" = "https://indicators-dashboard-he1e.onrender.com" :=
  ⟨(C8_backend_origin_static "localhost").1 (Or.inl rfl),
   (C8_backend_origin_static "app.example.com").2 (by decide) (by decide) (by decide)⟩

/-- Claim C2 counterexample: a non-2xx body whose `detail` field is the
empty string is displayed as the generic "Download failed", not as the
empty detail value, because `error.detail || "Download failed"` treats the
empty string as falsy. -/
theorem C2_counterexample :
    (handleSubmit ⟨"example.com", some "https://youtu.be/abc",
        FetchOutcome.resp false (BodyParse.json ⟨some "", none, none, none⟩)⟩
        ⟨some ⟨"", "info"⟩, some ""⟩).1.statusEl
      = some ⟨downloadFailedMsg, "error"⟩
    ∧ ¬ (handleSubmit ⟨"example.com", some "https://youtu.be/abc",
        FetchOutcome.resp false (BodyParse.json ⟨some "", none, none, none⟩)⟩
        ⟨some ⟨"", "info"⟩, some ""⟩).1.statusEl
      = some ⟨"", "error"⟩ := by
  decide

/-- Claim C2 (amended): for every non-2xx response whose body parses as
JSON with a non-empty string `detail` field, the displayed error message is
that detail value verbatim, with state `error`. -/
theorem C2_detail_shown_verbatim (hostname raw s : String) (b : JsonBody) (dom : Dom)
    (s0 : StatusSlot) (ht : ¬ jsTrim raw = "") (hd : b.detail = some s) (hne : s ≠ "")
    (hs : dom.statusEl = some s0) :
    (handleSubmit ⟨hostname, some raw,
        FetchOutcome.resp false (BodyParse.json b)⟩ dom).1.statusEl
      = some ⟨s, "error"⟩ := by
  simp [handleSubmit, ht, hd]
  rw [setStatus_statusEl_some _ ⟨processingMsg, "pending"⟩ _ _
    (domAtFetch_statusEl hostname dom s0 hs)]
  simp [jsOr, hne, genericErrorMsg, downloadFailedMsg]

/-- Claim C2 witness: `detail = "quota exceeded"` is shown verbatim. -/
theorem C2_witness :
    (handleSubmit ⟨"example.com", some "https://youtu.be/abc",
        FetchOutcome.resp false (BodyParse.json ⟨some "quota exceeded", none, none, none⟩)⟩
        ⟨some ⟨"", "info"⟩, some ""⟩).1.statusEl
      = some ⟨"quota exceeded", "error"⟩ :=
  C2_detail_shown_verbatim "example.com" "https://youtu.be/abc" "quota exceeded"
    ⟨some "quota exceeded", none, none, none⟩ _ ⟨"", "info"⟩ (by decide) rfl (by decide) rfl

/-- Claim C9: a non-2xx JSON body whose `detail` field is the empty string
or absent yields the generic "Download failed", never the empty value. -/
theorem C9_falsy_detail_generic (hostname raw : String) (b : JsonBody) (dom : Dom)
    (s0 : StatusSlot) (ht : ¬ jsTrim raw = "")
    (hd : b.detail = some "" ∨ b.detail = none) (hs : dom.statusEl = some s0) :
    (handleSubmit ⟨hostname, some raw,
        FetchOutcome.resp false (BodyParse.json b)⟩ dom).1.statusEl
      = some ⟨downloadFailedMsg, "error"⟩
    ∧ downloadFailedMsg ≠ "" := by
  refine ⟨?_, by decide⟩
  rcases hd with hd | hd
  · simp [handleSubmit, ht, hd]
    rw [setStatus_statusEl_some _ ⟨processingMsg, "pending"⟩ _ _
      (domAtFetch_statusEl hostname dom s0 hs)]
    decide
  · simp [handleSubmit, ht, hd]
    rw [setStatus_statusEl_some _ ⟨processingMsg, "pending"⟩ _ _
      (domAtFetch_statusEl hostname dom s0 hs)]
    decide

/-- Claim C9 witness: empty-string `detail` on a concrete submission. -/
theorem C9_witness :
    (handleSubmit ⟨"localhost", some "https://youtu.be/xyz",
        FetchOutcome.resp false (BodyParse.json ⟨some "", none, none, none⟩)⟩
        ⟨some ⟨"", "info"⟩, some ""⟩).1.statusEl
      = some ⟨downloadFailedMsg, "error"⟩
    ∧ downloadFailedMsg ≠ "" :=
  C9_falsy_detail_generic "localhost" "https://youtu.be/xyz"
    ⟨some "", none, none, none⟩ _ ⟨"", "info"⟩ (by decide) (Or.inl rfl) rfl

/-- Claim C5: on every submission with a non-empty trimmed URL, the result
slot is cleared to the empty fragment at fetch time, and in the action
trace the clear strictly precedes the fetch. -/
theorem C5_clears_before_fetch (hostname raw : String) (fo : FetchOutcome) (dom : Dom)
    (html : String) (ht : ¬ jsTrim raw = "") (hr : dom.resultEl = some html) :
    (domAtFetch hostname dom).resultEl = some ""
    ∧ ∃ rest, (handleSubmit ⟨hostname, some raw, fo⟩ dom).2
        = Event.statusSet processingMsg "pending" :: Event.resultCleared ::
          Event.fetchIssued (BACKEND_URL hostname ++ "/api/youtube/download")
            (jsTrim raw) :: rest := by
  refine ⟨domAtFetch_clears_result hostname dom html hr, ?_⟩
  obtain ⟨m, t, rest, htr, -, -⟩ := handleSubmit_shape hostname raw fo dom ht
  exact ⟨Event.statusSet m t :: rest, htr⟩

/-- Claim C5 witness: a concrete successful submission over a stale card. -/
theorem C5_witness :
    (domAtFetch "localhost" ⟨some ⟨"", "info"⟩, some "old card"⟩).resultEl = some ""
    ∧ ∃ rest, (handleSubmit ⟨"localhost", some "https://youtu.be/abc",
          FetchOutcome.resp true (BodyParse.json ⟨none, some "abc", some "/files/abc.mp4", some "abc.mp4"⟩)⟩
          ⟨some ⟨"", "info"⟩, some "old card"⟩).2
        = Event.statusSet processingMsg "pending" :: Event.resultCleared ::
          Event.fetchIssued (BACKEND_URL "localhost" ++ "/api/youtube/download")
            (jsTrim "https://youtu.be/abc") :: rest :=
  C5_clears_before_fetch "localhost" "https://youtu.be/abc"
    (FetchOutcome.resp true (BodyParse.json ⟨none, some "abc", some "/files/abc.mp4", some "abc.mp4"⟩))
    ⟨some ⟨"", "info"⟩, some "old card"⟩ "old card" (by decide) rfl

